import Mathlib

/-!
Verification development for the americans-abroad reconciliation core.

The definitions below are shallow embeddings of the JavaScript code in
`backend/services/matchTrackerFD.js` (the Football-Data/FotMob tracker) and
`backend/services/matchTracker.js` (the legacy API-Football tracker).

Modelling conventions:
* JS strings are Lean `String` (worked on as `List Char`);
* JS `null`/`undefined` is `Option.none`; a JS `TypeError` is modelled by a
  function returning `Option.none` as its whole result;
* JS `Date` values are integer epoch milliseconds (`Int`);
* plain-object payload fields that the embedded control flow never reads
  (e.g. floating-point ratings, venue strings) are omitted from the record
  types.
-/

namespace AmericansAbroad

/-- JS regex `\w` word characters (`[A-Za-z0-9_]`). -/
def isWordChar (c : Char) : Bool := c.isAlpha || c.isDigit || c == '_'

/-- ASCII `a`-`z`, the characters kept by the `[^a-z\s]` filters. -/
def isAsciiLowerAlpha (c : Char) : Bool := 'a' ≤ c && c ≤ 'z'

/-- Latin accented letters and the base letter their NFD decomposition starts
with.  Models `normalize('NFD').replace(/[̀-ͯ]/g, '')` for the
accented letters that occur in this development (both cases, folded to the
lower-case base since `toLowerCase` runs first in the source). -/
def accentPairs : List (Char × Char) :=
  [('á', 'a'), ('à', 'a'), ('â', 'a'), ('ä', 'a'), ('ã', 'a'), ('å', 'a'),
   ('Á', 'a'), ('À', 'a'), ('Â', 'a'), ('Ä', 'a'), ('Ã', 'a'), ('Å', 'a'),
   ('ç', 'c'), ('Ç', 'c'),
   ('é', 'e'), ('è', 'e'), ('ê', 'e'), ('ë', 'e'),
   ('É', 'e'), ('È', 'e'), ('Ê', 'e'), ('Ë', 'e'),
   ('í', 'i'), ('ì', 'i'), ('î', 'i'), ('ï', 'i'),
   ('Í', 'i'), ('Ì', 'i'), ('Î', 'i'), ('Ï', 'i'),
   ('ñ', 'n'), ('Ñ', 'n'),
   ('ó', 'o'), ('ò', 'o'), ('ô', 'o'), ('ö', 'o'), ('õ', 'o'),
   ('Ó', 'o'), ('Ò', 'o'), ('Ô', 'o'), ('Ö', 'o'), ('Õ', 'o'),
   ('ú', 'u'), ('ù', 'u'), ('û', 'u'), ('ü', 'u'),
   ('Ú', 'u'), ('Ù', 'u'), ('Û', 'u'), ('Ü', 'u'),
   ('ý', 'y'), ('ÿ', 'y'), ('Ý', 'y')]

def deaccentChar (c : Char) : Char :=
  match accentPairs.find? (fun p => p.1 == c) with
  | some p => p.2
  | none => c

def lowerChars (l : List Char) : List Char := l.map Char.toLower

def deaccentChars (l : List Char) : List Char := l.map deaccentChar

/-- JS `String.prototype.includes`: `hay.includes(nee)`. -/
def charsContains (hay nee : List Char) : Bool :=
  match hay with
  | [] => nee.isEmpty
  | c :: t => nee.isPrefixOf (c :: t) || charsContains t nee

/-- The club-suffix tokens of the FD tracker's
`\b(fc|cf|ac|as|afc|sc|sv|bv|ssc)\b` regex. -/
def suffixTokens : List (List Char) :=
  (["fc", "cf", "ac", "as", "afc", "sc", "sv", "bv", "ssc"]).map String.data

/-- One maximal `\w`-run of the input: dropped when it equals a suffix token.
Because every token consists only of word characters and is anchored by `\b`
on both sides, a token occurrence is exactly a whole maximal word run. -/
def flushRun (run : List Char) : List Char :=
  if suffixTokens.contains run then [] else run

/-- Scanner for `\b(fc|cf|ac|as|afc|sc|sv|bv|ssc)\b` removal: accumulates the
current maximal word run and flushes it at each non-word character. -/
def stripSuffixTokensAux (run : List Char) : List Char → List Char
  | [] => flushRun run
  | c :: t =>
    if isWordChar c then stripSuffixTokensAux (run ++ [c]) t
    else flushRun run ++ c :: stripSuffixTokensAux [] t

/-- `.replace(/1\./g, '')` — numeric prefixes of German clubs. -/
def strip1Dot : List Char → List Char
  | [] => []
  | '1' :: '.' :: t => strip1Dot t
  | c :: t => c :: strip1Dot t

/-- `.replace(/\s+/g, ' ')`: collapse whitespace runs to a single space;
`prevWs` records whether the previous character was whitespace. -/
def collapseWsAux (prevWs : Bool) : List Char → List Char
  | [] => []
  | c :: t =>
    if c.isWhitespace then
      if prevWs then collapseWsAux true t else ' ' :: collapseWsAux true t
    else c :: collapseWsAux false t

/-- `.trim()` on a whitespace-collapsed list (only plain spaces remain). -/
def trimSpaces (l : List Char) : List Char :=
  ((l.dropWhile (· == ' ')).reverse.dropWhile (· == ' ')).reverse

/-- `normalizeWithSpaces` of `MatchTrackerFD.teamMatches`: lowercase, strip
accents, strip suffix tokens at word boundaries, drop `1.`, drop everything
but `[a-z]` and whitespace, collapse whitespace, trim. -/
def normalizeWithSpaces (s : String) : List Char :=
  trimSpaces (collapseWsAux false
    ((strip1Dot (stripSuffixTokensAux [] (deaccentChars (lowerChars s.data)))).filter
      (fun c => isAsciiLowerAlpha c || c.isWhitespace)))

/-- `normalize` of `MatchTrackerFD.teamMatches`: the space-free form
(`normalizeWithSpaces(name).replace(/\s/g, '')`). -/
def normalizeFull (s : String) : List Char :=
  (normalizeWithSpaces s).filter (fun c => !c.isWhitespace)

/-- JS `split(' ')` (splitting on each single space). -/
def splitOnSpace : List Char → List (List Char)
  | [] => [[]]
  | c :: t =>
    match splitOnSpace t with
    | [] => [[]]
    | w :: ws => if c == ' ' then [] :: w :: ws else (c :: w) :: ws

/-- The `genericWords` stop-set of `MatchTrackerFD.teamMatches`. -/
def genericWords : List (List Char) :=
  (["united", "city", "town", "athletic", "sporting", "club", "real",
    "rovers", "wanderers", "albion", "hotspur", "villa", "forest",
    "county", "palace", "ham", "dynamo", "olympic", "olympique"]).map String.data

/-- Significant words of a team name: words of length > 3 that are not in the
generic stop-set (`.split(' ').filter(w => w.length > 3 && !genericWords.has(w))`). -/
def significantWords (s : String) : List (List Char) :=
  (splitOnSpace (normalizeWithSpaces s)).filter
    (fun w => w.length > 3 && !genericWords.contains w)

/-- `MatchTrackerFD.teamMatches(apiTeamName, ourTeamName)`.  The leading
falsy guard (`if (!apiTeamName || !ourTeamName) return false`) is modelled
for the empty string here; `null`/`undefined` arguments are handled by
`teamMatchesFD` below. -/
def teamMatches (apiTeamName ourTeamName : String) : Bool :=
  if apiTeamName.isEmpty || ourTeamName.isEmpty then false
  else
    let api := normalizeFull apiTeamName
    let our := normalizeFull ourTeamName
    if api = our then true
    else
      let apiWords := significantWords apiTeamName
      let ourWords := significantWords ourTeamName
      match apiWords, ourWords with
      | [], _ => decide (api = our)
      | _ :: _, [] => decide (api = our)
      | _ :: _, [ourWord] => apiWords.any (fun apiWord => apiWord == ourWord)
      | _ :: _, _ :: _ :: _ =>
        ourWords.all (fun ourWord =>
          apiWords.any (fun apiWord =>
            apiWord == ourWord || List.isPrefixOf ourWord apiWord ||
              List.isPrefixOf apiWord ourWord))

/-- `MatchTrackerFD.teamMatches` on possibly-`null`/`undefined` arguments:
the guard returns `false` for every falsy input. -/
def teamMatchesFD (apiTeamName ourTeamName : Option String) : Bool :=
  match apiTeamName, ourTeamName with
  | some a, some b => teamMatches a b
  | _, _ => false

/-! ### Legacy `MatchTracker.teamMatches` (API-Football tracker) -/

/-- `replace(/fc|cf|ac|as|afc|sc|sv|bv/gi, '')` of the legacy tracker: no
word boundaries, leftmost match, alternation order `fc,cf,ac,as,afc,sc,sv,bv`.
The `'a'`-family and `'s'`-family alternatives are mutually exclusive on
their second character, so pattern priority below reproduces the regex. -/
def mtStripTokens : List Char → List Char
  | 'f' :: 'c' :: t => mtStripTokens t
  | 'c' :: 'f' :: t => mtStripTokens t
  | 'a' :: 'c' :: t => mtStripTokens t
  | 'a' :: 's' :: t => mtStripTokens t
  | 'a' :: 'f' :: 'c' :: t => mtStripTokens t
  | 's' :: 'c' :: t => mtStripTokens t
  | 's' :: 'v' :: t => mtStripTokens t
  | 'b' :: 'v' :: t => mtStripTokens t
  | c :: t => c :: mtStripTokens t
  | [] => []

/-- `normalize` of the legacy `MatchTracker.teamMatches`: lowercase, strip
suffix tokens anywhere, drop every character outside `[a-z]` (the final
`.trim()` is the identity on a letters-only string). -/
def mtNormalize (s : String) : List Char :=
  (mtStripTokens (lowerChars s.data)).filter isAsciiLowerAlpha

/-- Legacy `MatchTracker.teamMatches`.  It has no falsy guard:
`name.toLowerCase()` raises a `TypeError` on `null`/`undefined`, modelled by
an overall `none` result. -/
def mtTeamMatches : Option String → Option String → Option Bool
  | some apiTeamName, some ourTeamName =>
    let api := mtNormalize apiTeamName
    let our := mtNormalize ourTeamName
    some (charsContains api our || charsContains our api || decide (api = our))
  | _, _ => none

/-! ### Event Normalizer (FD tracker) -/

/-- A canonical event as built by `parsePlayerEvents`: `etype` is one of the
source's string literals `goal, assist, sub_in, sub_out, yellow, red`. -/
structure JEvent where
  etype : String
  minute : Int
deriving Repr, DecidableEq

/-- One entry of `matchDetails.goals` (only the fields the tracker reads). -/
structure GoalEntry where
  scorer : Option String
  assist : Option String
  minute : Int
deriving Repr, DecidableEq

/-- One entry of `matchDetails.substitutions`. -/
structure SubEntry where
  playerOut : Option String
  playerIn : Option String
  minute : Int
deriving Repr, DecidableEq

/-- One entry of `matchDetails.bookings`. -/
structure BookingEntry where
  player : Option String
  card : String
  minute : Int
deriving Repr, DecidableEq

/-- A team's sheet in `matchDetails` (`lineup`/`bench` arrays of player
names).  An absent array behaves exactly like an empty one in the source
(`teamLineup && teamLineup.length > 0`), so both are modelled by `[]`. -/
structure TeamSheet where
  lineup : List String
  bench : List String
deriving Repr, DecidableEq

/-- `matchDetails` as read by the FD tracker. -/
structure MatchDetails where
  goals : List GoalEntry
  substitutions : List SubEntry
  bookings : List BookingEntry
  homeTeam : TeamSheet
  awayTeam : TeamSheet
deriving Repr, DecidableEq

/-- `playerName.split(' ').pop().toLowerCase()`. -/
def lastNameLower (playerName : String) : List Char :=
  lowerChars ((splitOnSpace playerName.data).getLastD [])

/-- `(entry?.name?.toLowerCase() || '')`. -/
def optNameLower : Option String → List Char
  | none => []
  | some s => lowerChars s.data

/-- `MatchTrackerFD.parsePlayerEvents`: goals, then substitutions, then
bookings, attributing an event when the entry's name contains the player's
lower-cased last name (`isHome` is not consulted by the source). -/
def parsePlayerEvents (md : MatchDetails) (playerName : String) : List JEvent :=
  let lastName := lastNameLower playerName
  (md.goals.flatMap (fun g =>
    (if charsContains (optNameLower g.scorer) lastName then
      [JEvent.mk "goal" g.minute] else []) ++
    (if charsContains (optNameLower g.assist) lastName then
      [JEvent.mk "assist" g.minute] else [])))
  ++ (md.substitutions.flatMap (fun s =>
    (if charsContains (optNameLower s.playerOut) lastName then
      [JEvent.mk "sub_out" s.minute] else []) ++
    (if charsContains (optNameLower s.playerIn) lastName then
      [JEvent.mk "sub_in" s.minute] else [])))
  ++ (md.bookings.flatMap (fun b =>
    if charsContains (optNameLower b.player) lastName then
      [JEvent.mk (if b.card == "YELLOW_CARD" then "yellow" else "red") b.minute]
    else []))

/-- `MatchTrackerFD.calculateMinutesPlayed(events, matchMinute = 90)`. -/
def calculateMinutesPlayed (events : List JEvent) (matchMinute : Int) : Int :=
  let subIn := events.find? (fun e => e.etype == "sub_in")
  let subOut := events.find? (fun e => e.etype == "sub_out")
  match subIn, subOut with
  | some i, some o => o.minute - i.minute
  | some i, none => matchMinute - i.minute
  | none, some o => o.minute
  | none, none => matchMinute
  -- in the source both no-sub arms (`events.length > 0` and the default)
  -- return `matchMinute`, so they collapse to one arm here

/-- The per-player participation fields of a derived match record. -/
structure Partic where
  participated : Option Bool
  minutesPlayed : Option Int
  started : Option Bool
  events : List JEvent
deriving Repr, DecidableEq

/-- `isHome ? matchDetails.homeTeam : matchDetails.awayTeam`. -/
def sheetOf (md : MatchDetails) (isHome : Bool) : TeamSheet :=
  if isHome then md.homeTeam else md.awayTeam

/-- `names.some(p => (p.name || '').toLowerCase().includes(playerLastName))`. -/
def nameListHas (names : List String) (lastName : List Char) : Bool :=
  names.any (fun n => charsContains (lowerChars n.data) lastName)

/-- The per-player participation derivation of `MatchTrackerFD.updateMatchData`
(today's match): lineup check, bench check, event parsing, minutes.
`matchMinute` is the raw `match.minute` field (`0` models JS falsy, giving
the `|| 45` fallback for live matches). -/
def fdDeriveToday (mdOpt : Option MatchDetails) (playerName : String)
    (isHome : Bool) (status : String) (matchMinute : Int) : Partic :=
  match mdOpt with
  | none => { participated := none, minutesPlayed := none, started := none, events := [] }
  | some md =>
    let lastName := lastNameLower playerName
    let sheet := sheetOf md isHome
    let inLineup := sheet.lineup.length > 0 && nameListHas sheet.lineup lastName
    let participated0 : Option Bool := if inLineup then some true else none
    let started0 : Option Bool := if inLineup then some true else none
    -- bench check runs only when `!participated` (i.e. still null here)
    let onBench := sheet.bench.length > 0 && decide (participated0 = none)
      && nameListHas sheet.bench lastName
    let started1 : Option Bool := if onBench then some false else started0
    let playerEvents := parsePlayerEvents md playerName
    if playerEvents.length > 0 then
      let hasSubIn := playerEvents.any (fun e => e.etype == "sub_in")
      let started2 : Option Bool :=
        if hasSubIn then some false
        else if started1 = none then some true
        else started1
      let currentMinute : Int :=
        if status == "live" then (if matchMinute == 0 then 45 else matchMinute) else 90
      { participated := some true,
        minutesPlayed := some (calculateMinutesPlayed playerEvents currentMinute),
        started := started2,
        events := playerEvents }
    else if participated0 == some true && status == "finished" then
      -- in lineup but no events = played full 90
      { participated := participated0, minutesPlayed := some 90,
        started := started1, events := playerEvents }
    else
      -- no events and no lineup/bench hit: leave everything unknown
      { participated := participated0, minutesPlayed := none,
        started := started1, events := playerEvents }

/-- The per-player participation derivation of the Football-Data section of
`MatchTrackerFD.updateLastGameData` (finished matches): lineup gives
`90` minutes, bench with no sub events gives the "unused sub" record. -/
def fdDeriveLast (mdOpt : Option MatchDetails) (playerName : String)
    (isHome : Bool) : Partic :=
  match mdOpt with
  | none => { participated := none, minutesPlayed := none, started := none, events := [] }
  | some md =>
    let lastName := lastNameLower playerName
    let sheet := sheetOf md isHome
    let inLineup := sheet.lineup.length > 0 && nameListHas sheet.lineup lastName
    let participated0 : Option Bool := if inLineup then some true else none
    let started0 : Option Bool := if inLineup then some true else none
    let minutes0 : Option Int := if inLineup then some 90 else none
    let onBench := decide (participated0 = none) && sheet.bench.length > 0
      && nameListHas sheet.bench lastName
    let started1 : Option Bool := if onBench then some false else started0
    let playerEvents := parsePlayerEvents md playerName
    if playerEvents.length > 0 then
      let hasSubIn := playerEvents.any (fun e => e.etype == "sub_in")
      let started2 : Option Bool :=
        if hasSubIn then some false
        else if started1 = none then some true
        else started1
      { participated := some true,
        minutesPlayed := some (calculateMinutesPlayed playerEvents 90),
        started := started2,
        events := playerEvents }
    else if started1 == some false && decide (participated0 = none) then
      -- on bench with no sub events = unused sub
      { participated := some false, minutesPlayed := some 0,
        started := started1, events := playerEvents }
    else
      { participated := participated0, minutesPlayed := minutes0,
        started := started1, events := playerEvents }

/-! ### Legacy tracker participation derivation -/

/-- Legacy `MatchTracker.didPlayerParticipate`. -/
def didPlayerParticipate (events : List JEvent) : Bool :=
  let hasSubIn := events.any (fun e => e.etype == "sub_in")
  let hasSubOut := events.any (fun e => e.etype == "sub_out")
  let hasOtherEvents := events.any (fun e =>
    !(e.etype == "sub_in" || e.etype == "sub_out"))
  hasSubIn || hasSubOut || hasOtherEvents

/-- Legacy `MatchTracker.calculateMinutesPlayed(events, matchMinute, status)`. -/
def mtCalculateMinutesPlayed (events : List JEvent) (matchMinute : Int)
    (status : String) : Int :=
  let subIn := events.find? (fun e => e.etype == "sub_in")
  let subOut := events.find? (fun e => e.etype == "sub_out")
  let fullTime := if status == "finished" then 90 else matchMinute
  match subIn, subOut with
  | some i, some o => o.minute - i.minute
  | some i, none => fullTime - i.minute
  | none, some o => o.minute
  | none, none =>
    if status == "finished" || status == "live" then
      if events.length > 0 then fullTime else 0
    else 0

/-- The participation fields the legacy tracker stores (plain booleans and a
plain number — no tri-state). -/
structure MTRecord where
  participated : Bool
  minutesPlayed : Int
  started : Bool
deriving Repr, DecidableEq

/-- The per-player derivation of the legacy `MatchTracker.updateMatchData`:
`elapsed` is `fixture.fixture.status.elapsed` (`0` models JS falsy, giving
the `|| 90` fallback). -/
def mtDeriveToday (playerEvents : List JEvent) (elapsed : Int)
    (status : String) : MTRecord :=
  let participated := didPlayerParticipate playerEvents
  let minutesPlayed := mtCalculateMinutesPlayed playerEvents
    (if elapsed == 0 then 90 else elapsed) status
  { participated := participated,
    minutesPlayed := minutesPlayed,
    started := !(playerEvents.any (fun e => e.etype == "sub_in")) && participated }

/-! ### Status normalization -/

/-- The canonical six-value status vocabulary. -/
def canonicalStatuses : List String :=
  ["upcoming", "live", "finished", "suspended", "postponed", "cancelled"]

/-- `MatchTrackerFD.getMatchStatus` on the `match.status` field
(Football-Data.org vocabulary); the `default` arm returns the raw status. -/
def getMatchStatus (status : String) : String :=
  if status == "SCHEDULED" || status == "TIMED" then "upcoming"
  else if status == "IN_PLAY" || status == "PAUSED" || status == "LIVE" then "live"
  else if status == "FINISHED" then "finished"
  else if status == "SUSPENDED" then "suspended"
  else if status == "POSTPONED" then "postponed"
  else if status == "CANCELLED" then "cancelled"
  else status

/-- The case labels handled by `MatchTrackerFD.getMatchStatus`. -/
def fdHandledStatuses : List String :=
  ["SCHEDULED", "TIMED", "IN_PLAY", "PAUSED", "LIVE", "FINISHED",
   "SUSPENDED", "POSTPONED", "CANCELLED"]

/-- Legacy `MatchTracker.getMatchStatus` on `fixture.fixture.status.short`
(API-Football vocabulary); the `default` arm returns the raw status. -/
def mtGetMatchStatus (status : String) : String :=
  if status == "NS" then "upcoming"
  else if status == "1H" || status == "2H" || status == "HT" || status == "ET"
      || status == "P" || status == "LIVE" then "live"
  else if status == "FT" || status == "AET" || status == "PEN" then "finished"
  else if status == "SUSP" || status == "INT" then "suspended"
  else if status == "PST" then "postponed"
  else if status == "CANC" then "cancelled"
  else status

/-- The case labels handled by the legacy `MatchTracker.getMatchStatus`. -/
def mtHandledStatuses : List String :=
  ["NS", "1H", "2H", "HT", "ET", "P", "LIVE", "FT", "AET", "PEN",
   "SUSP", "INT", "PST", "CANC"]

/-! ### NextGame cache and refresh rule -/

/-- A persisted next-game cache entry; only `kickoff` (epoch ms) is read by
the freshness logic, the remaining payload is opaque here. -/
structure CachedGame where
  kickoff : Int
deriving Repr, DecidableEq

/-- A roster player as read by the freshness logic. -/
structure Player where
  id : Nat
  team : String
deriving Repr, DecidableEq

/-- `MatchTrackerFD.loadNextGamesCache`: admit a persisted entry exactly when
`new Date(gameData.kickoff) > now` (strictly in the future). -/
def loadNextGamesCache (now : Int) (file : List (Nat × CachedGame)) :
    List (Nat × CachedGame) :=
  file.filter (fun e => now < e.2.kickoff)

/-- `MatchTrackerFD.needsNextGameRefresh(teamName)`: true when some roster
player of the team has no cached entry or a cached entry whose kickoff is
`<= now`.  The `nextGameData` map is modelled as a function. -/
def needsNextGameRefresh (players : List Player) (cache : Nat → Option CachedGame)
    (now : Int) (teamName : String) : Bool :=
  (players.filter (fun p => p.team == teamName)).any (fun p =>
    match cache p.id with
    | none => true
    | some cached => decide (cached.kickoff ≤ now))

/-! ### Poll scheduler -/

/-- `liveIntervalMs = 60 * 1000` of `startPolling`. -/
def liveIntervalMs : Int := 60 * 1000

/-- Scheduler state: the interval currently armed and a generation counter
for the interval timer (`clearInterval` + `setInterval` bumps it). -/
structure SchedState where
  currentInterval : Int
  timerGen : Nat
deriving Repr, DecidableEq

/-- Today's `matchData` map, modelled as `playerId -> status` entries (the
scheduler only reads the `status` field). -/
def hasLiveMatches (matchData : List (Nat × String)) : Bool :=
  matchData.any (fun e => e.2 == "live")

/-- `Map.prototype.set` on the association-list model. -/
def mapSet (m : List (Nat × String)) (k : Nat) (v : String) : List (Nat × String) :=
  if m.any (fun e => e.1 == k) then
    m.map (fun e => if e.1 == k then (k, v) else e)
  else m ++ [(k, v)]

def mapSetAll (m : List (Nat × String)) (upd : List (Nat × String)) :
    List (Nat × String) :=
  upd.foldl (fun acc e => mapSet acc e.1 e.2) m

/-- One tick of `pollForUpdates` in `MatchTrackerFD.startPolling`:
Football-Data statuses are written first, live status is sampled, then the
FotMob statuses are written, and finally the interval is retargeted
(cancel + recreate) only when the chosen cadence differs from the armed one.
`fdUpd`/`fmUpd` are the per-player status writes the two update passes
perform this tick. -/
def pollForUpdates (normalIntervalMs : Int) (fdUpd fmUpd : List (Nat × String))
    (matchData : List (Nat × String)) (st : SchedState) :
    List (Nat × String) × SchedState :=
  let md1 := mapSetAll matchData fdUpd
  let isLive := hasLiveMatches md1
  let md2 := mapSetAll md1 fmUpd
  let newInterval := if isLive then liveIntervalMs else normalIntervalMs
  let st' :=
    if newInterval != st.currentInterval then
      { currentInterval := newInterval, timerGen := st.timerGen + 1 }
    else st
  (md2, st')

/-! ### FotMob recent-match / missed-game derivation -/

/-- One entry of `fotmob.getPlayerRecentMatches` (ordered most-recent-first). -/
structure RecentMatch where
  matchId : Option Nat
  date : Int
  homeTeam : String
  awayTeam : String
  homeScore : Int
  awayScore : Int
  participated : Bool
  minutesPlayed : Option Int
  started : Bool
  goals : Int
  assists : Int
  competition : String
  onBench : Bool
deriving Repr, DecidableEq

/-- The result of `fotmob.getTeamLastMatch(team)`. -/
structure TeamLastMatch where
  id : Option Nat
  date : Int
  homeTeam : String
  awayTeam : String
  homeScore : Int
  awayScore : Int
  isHome : Bool
  competition : String
deriving Repr, DecidableEq

/-- A `missedGame` record as assembled by `getPlayerRecentMatchFromFotMob`
(`onBench` is only present on the player-API variant). -/
structure MissedGame where
  fixtureId : Option Nat
  date : Int
  homeTeam : String
  awayTeam : String
  homeScore : Int
  awayScore : Int
  isHome : Bool
  competition : String
  onBench : Option Bool
deriving Repr, DecidableEq

/-- The `result` object of `getPlayerRecentMatchFromFotMob` (scores and the
`source` tag are carried by the caller unchanged and omitted here). -/
structure FotMobResult where
  missedGame : Option MissedGame
  date : Option Int
  homeTeam : Option String
  awayTeam : Option String
  isHome : Option Bool
  minutesPlayed : Option Int
  started : Option Bool
  participated : Option Bool
deriving Repr, DecidableEq

/-- `MatchTrackerFD.getPlayerRecentMatchFromFotMob(player)`, with the two
adapter calls as inputs: `recentMatches` is the player-API history (`[]`
models both an empty and a missing list) and `teamLastMatch` the team-API
last match (`none` models both `null` and a thrown error).  `playerTeam` is
the player's current roster team. -/
def getPlayerRecentMatchFromFotMob (playerTeam : String)
    (recentMatches : List RecentMatch) (teamLastMatch : Option TeamLastMatch) :
    Option FotMobResult :=
  match recentMatches with
  | mostRecentMatch :: _ =>
    let participatedMatch := recentMatches.find? (fun m => m.participated)
    -- missed game from the player API's own most recent entry: no check that
    -- the player's current team appears in the match
    let missed1 : Option MissedGame :=
      if !mostRecentMatch.participated && participatedMatch.isSome then
        some { fixtureId := mostRecentMatch.matchId,
               date := mostRecentMatch.date,
               homeTeam := mostRecentMatch.homeTeam,
               awayTeam := mostRecentMatch.awayTeam,
               homeScore := mostRecentMatch.homeScore,
               awayScore := mostRecentMatch.awayScore,
               isHome := teamMatches mostRecentMatch.homeTeam playerTeam,
               competition := mostRecentMatch.competition,
               onBench := some mostRecentMatch.onBench }
      else none
    let mainFields : FotMobResult :=
      match participatedMatch with
      | some pm =>
        { missedGame := none,
          date := some pm.date,
          homeTeam := some pm.homeTeam,
          awayTeam := some pm.awayTeam,
          isHome := some (teamMatches pm.homeTeam playerTeam),
          minutesPlayed := pm.minutesPlayed,
          started := some pm.started,
          participated := some pm.participated }
      | none =>
        { missedGame := none,
          date := some mostRecentMatch.date,
          homeTeam := some mostRecentMatch.homeTeam,
          awayTeam := some mostRecentMatch.awayTeam,
          isHome := some (teamMatches mostRecentMatch.homeTeam playerTeam),
          minutesPlayed := some 0,
          started := some false,
          participated := some false }
    -- cross-check against the team's own last match, only when no missed
    -- game was found above and the player did participate in something
    let missed2 : Option MissedGame :=
      match missed1, participatedMatch, teamLastMatch with
      | none, some pm, some t =>
        if pm.date < t.date then
          some { fixtureId := t.id, date := t.date,
                 homeTeam := t.homeTeam, awayTeam := t.awayTeam,
                 homeScore := t.homeScore, awayScore := t.awayScore,
                 isHome := t.isHome, competition := t.competition,
                 onBench := none }
        else none
      | m1, _, _ => m1
    some { mainFields with missedGame := missed2 }
  | [] =>
    -- no recent matches from the player API: fall back to the team's last
    -- match, again with no current-team validation in the source
    match teamLastMatch with
    | some t =>
      some { missedGame := some { fixtureId := t.id, date := t.date,
                                  homeTeam := t.homeTeam, awayTeam := t.awayTeam,
                                  homeScore := t.homeScore, awayScore := t.awayScore,
                                  isHome := t.isHome, competition := t.competition,
                                  onBench := none },
             date := none, homeTeam := none, awayTeam := none, isHome := none,
             minutesPlayed := none, started := none, participated := none }
    | none => none

/-! ### Concrete feed payloads used in the theorems below -/

/-- Match details with no goal/sub/booking entries and no lineup or bench. -/
def emptyDetails : MatchDetails :=
  { goals := [], substitutions := [], bookings := [],
    homeTeam := { lineup := [], bench := [] },
    awayTeam := { lineup := [], bench := [] } }

/-- Match details whose substitutions put the tracked player on at 60 and
off at 85 (no lineup data). -/
def subWindowDetails : MatchDetails :=
  { goals := [], bookings := [],
    substitutions :=
      [{ playerOut := some "Smith", playerIn := some "Christian Pulisic", minute := 60 },
       { playerOut := some "Pulisic", playerIn := some "Jones", minute := 85 }],
    homeTeam := { lineup := [], bench := [] },
    awayTeam := { lineup := [], bench := [] } }

/-- Match details that confirm the tracked player on the home bench with no
events attributed to anyone. -/
def benchOnlyDetails : MatchDetails :=
  { goals := [], substitutions := [], bookings := [],
    homeTeam := { lineup := [], bench := ["Christian Pulisic"] },
    awayTeam := { lineup := [], bench := [] },
    }

/-- A player-API history entry from the player's former club which the player
did not appear in (the most recent entry after a transfer, cf. the
Mihailovic/Sargent case in `HANDOVER.md`). -/
def staleOldTeamMatch : RecentMatch :=
  { matchId := some 101, date := 200,
    homeTeam := "Colorado Rapids", awayTeam := "LA Galaxy",
    homeScore := 2, awayScore := 1, participated := false,
    minutesPlayed := none, started := false, goals := 0, assists := 0,
    competition := "MLS", onBench := false }

/-- An earlier history entry the player did play in, also at the former club. -/
def earlierParticipatedMatch : RecentMatch :=
  { matchId := some 100, date := 100,
    homeTeam := "Colorado Rapids", awayTeam := "Austin FC",
    homeScore := 1, awayScore := 0, participated := true,
    minutesPlayed := some 90, started := true, goals := 0, assists := 0,
    competition := "MLS", onBench := false }

/-! ## Theorems -/

/-- C2 (counterexample): contrary to the claimed value `false`,
`teamMatches("West Bromwich Albion", "West Ham")` evaluates to `true`:
"West Ham" reduces to the single significant word `west` ("ham" is dropped
as too short), and `west` matches exactly among the feed name's significant
words. -/
theorem c2_counterexample :
    teamMatches "West Bromwich Albion" "West Ham" = true := by decide

/-- C2 (amended): under the documented normalization,
`teamMatches("West Bromwich Albion", "West Ham")` returns `true` (the roster
name reduces to the single significant word `west`, which matches exactly);
with the arguments reversed the multi-word rule yields `false`; and
`teamMatches("1. FC Köln", "FC Koln")` returns `true`. -/
theorem c2_amended :
    teamMatches "West Bromwich Albion" "West Ham" = true ∧
    teamMatches "West Ham" "West Bromwich Albion" = false ∧
    teamMatches "1. FC Köln" "FC Koln" = true :=
  ⟨by decide, by decide, by decide⟩

/-- C8 (counterexample): symmetry fails on a pair where the single-word rule
applies to the roster name: "West Ham" has exactly one significant word, yet
`teamMatches` differs under argument swap for the feed name
"West Bromwich Albion". -/
theorem c8_counterexample :
    (significantWords "West Ham").length = 1 ∧
    teamMatches "West Bromwich Albion" "West Ham" = true ∧
    teamMatches "West Ham" "West Bromwich Albion" = false :=
  ⟨by decide, by decide, by decide⟩

/-- C8 (amended): `teamMatches` is symmetric whenever **both** names reduce
to exactly one significant word (the regime in which the single-word
exact-word rule governs both evaluation orders). -/
theorem c8_amended (a b : String)
    (ha : (significantWords a).length = 1)
    (hb : (significantWords b).length = 1) :
    teamMatches a b = teamMatches b a := by
  obtain ⟨x, hx⟩ := List.length_eq_one.mp ha
  obtain ⟨y, hy⟩ := List.length_eq_one.mp hb
  have hswEmpty : significantWords "" = [] := by decide
  have hae : a.isEmpty = false := by
    cases hcase : a.isEmpty
    · rfl
    · exfalso
      have haeq : a = "" := (String.isEmpty_iff a).mp hcase
      rw [haeq, hswEmpty] at ha
      simp at ha
  have hbe : b.isEmpty = false := by
    cases hcase : b.isEmpty
    · rfl
    · exfalso
      have hbeq : b = "" := (String.isEmpty_iff b).mp hcase
      rw [hbeq, hswEmpty] at hb
      simp at hb
  by_cases heq : normalizeFull a = normalizeFull b
  · simp [teamMatches, hae, hbe, heq]
  · have heq' : ¬ normalizeFull b = normalizeFull a := fun h => heq h.symm
    simp only [teamMatches, hae, hbe, Bool.or_self, Bool.false_eq_true,
      if_false, if_neg heq, if_neg heq', hx, hy]
    simp only [List.any_cons, List.any_nil, Bool.or_false]
    by_cases hxy : x = y
    · subst hxy; rfl
    · have h1 : (x == y) = false := by
        rw [beq_eq_false_iff_ne]; exact hxy
      have h2 : (y == x) = false := by
        rw [beq_eq_false_iff_ne]; exact fun h => hxy h.symm
      rw [h1, h2]

/-- C8 (witness): both "AC Milan" and "Inter" reduce to a single significant
word and the amended symmetry law applies to them. -/
theorem c8_witness :
    (significantWords "AC Milan").length = 1 ∧
    (significantWords "Inter").length = 1 ∧
    teamMatches "AC Milan" "Inter" = teamMatches "Inter" "AC Milan" :=
  ⟨by decide, by decide, c8_amended "AC Milan" "Inter" (by decide) (by decide)⟩

/-- C9 (counterexample): the FD status map passes an unrecognized native
status (here `AWARDED`, a Football-Data.org status with no case label)
through unchanged, so its output is not confined to the canonical
six-element set. -/
theorem c9_counterexample :
    getMatchStatus "AWARDED" = "AWARDED" ∧ "AWARDED" ∉ canonicalStatuses :=
  ⟨rfl, by decide⟩

/-- C9 (amended): both status maps send every status they recognize into the
canonical six-element set, and return any other status string unchanged. -/
theorem c9_amended :
    (∀ s ∈ fdHandledStatuses, getMatchStatus s ∈ canonicalStatuses) ∧
    (∀ s : String, s ∉ fdHandledStatuses → getMatchStatus s = s) ∧
    (∀ s ∈ mtHandledStatuses, mtGetMatchStatus s ∈ canonicalStatuses) ∧
    (∀ s : String, s ∉ mtHandledStatuses → mtGetMatchStatus s = s) := by
  refine ⟨by decide, ?_, by decide, ?_⟩
  · intro s hs
    simp only [fdHandledStatuses, List.mem_cons, List.not_mem_nil, or_false,
      not_or] at hs
    obtain ⟨h1, h2, h3, h4, h5, h6, h7, h8, h9⟩ := hs
    simp [getMatchStatus, h1, h2, h3, h4, h5, h6, h7, h8, h9]
  · intro s hs
    simp only [mtHandledStatuses, List.mem_cons, List.not_mem_nil, or_false,
      not_or] at hs
    obtain ⟨h1, h2, h3, h4, h5, h6, h7, h8, h9, h10, h11, h12, h13, h14⟩ := hs
    simp [mtGetMatchStatus, h1, h2, h3, h4, h5, h6, h7, h8, h9, h10, h11,
      h12, h13, h14]

/-- C9 (witness): the amended map sends `TIMED` into the canonical set and
leaves the unrecognized string `FOO` unchanged. -/
theorem c9_witness :
    getMatchStatus "TIMED" ∈ canonicalStatuses ∧ getMatchStatus "FOO" = "FOO" :=
  ⟨c9_amended.1 "TIMED" (by decide), c9_amended.2.1 "FOO" (by decide)⟩

/-- C10: `MatchTrackerFD.teamMatches` returns `false` (without throwing) for
every `null`/`undefined`/empty argument, while the legacy
`MatchTracker.teamMatches` has no such guard: on `null`/`undefined` input,
`name.toLowerCase()` throws (modelled by `none`). -/
theorem c10_theorem :
    (∀ a b : Option String,
      (a = none ∨ a = some "" ∨ b = none ∨ b = some "") →
        teamMatchesFD a b = false) ∧
    (∀ s : String,
      mtTeamMatches none (some s) = none ∧
      mtTeamMatches (some s) none = none ∧
      mtTeamMatches none none = none) := by
  constructor
  · rintro a b (rfl | rfl | rfl | rfl)
    · cases b <;> rfl
    · cases b with
      | none => rfl
      | some b' => rfl
    · cases a <;> rfl
    · cases a with
      | none => rfl
      | some a' =>
        show teamMatches a' "" = false
        unfold teamMatches
        rw [show String.isEmpty "" = true from rfl, Bool.or_true]
        simp
  · intro s
    exact ⟨rfl, rfl, rfl⟩

/-- C10 (witness): the guard at a concrete falsy input, next to the legacy
function's thrown `TypeError` there. -/
theorem c10_witness :
    teamMatchesFD none (some "Chelsea") = false ∧
    mtTeamMatches none (some "Chelsea") = none :=
  ⟨c10_theorem.1 none (some "Chelsea") (Or.inl rfl),
   (c10_theorem.2 "Chelsea").1⟩

/-- C1 (counterexample): the legacy `MatchTracker.updateMatchData`
derivation converts an empty event list for a finished match into
`participated = false`, `minutesPlayed = 0`, `started = false` — the very
values the claim says are never stored. -/
theorem c1_counterexample :
    mtDeriveToday [] 90 "finished"
      = { participated := false, minutesPlayed := 0, started := false } := by
  decide

/-- C1 (amended): in `MatchTrackerFD.updateMatchData`, whenever the feed
provides no match details, or details with no lineup/bench data and no event
mentioning the player, the derived `participated`, `started` and
`minutesPlayed` all stay unknown (`none`); the legacy `MatchTracker`
derivation instead defaults them to "did not play". -/
theorem c1_amended (mdOpt : Option MatchDetails) (playerName : String)
    (isHome : Bool) (status : String) (matchMinute : Int)
    (hnodata : ∀ md, mdOpt = some md →
      (sheetOf md isHome).lineup = [] ∧ (sheetOf md isHome).bench = [] ∧
      parsePlayerEvents md playerName = []) :
    (fdDeriveToday mdOpt playerName isHome status matchMinute).participated = none ∧
    (fdDeriveToday mdOpt playerName isHome status matchMinute).started = none ∧
    (fdDeriveToday mdOpt playerName isHome status matchMinute).minutesPlayed = none := by
  cases mdOpt with
  | none => exact ⟨rfl, rfl, rfl⟩
  | some md =>
    obtain ⟨hl, hb, he⟩ := hnodata md rfl
    simp [fdDeriveToday, hl, hb, he]

/-- C1 (witness): the amended law at a concrete details object with empty
lineup, bench and event lists. -/
theorem c1_witness :
    (fdDeriveToday (some emptyDetails) "Christian Pulisic" true "finished" 0).participated = none ∧
    (fdDeriveToday (some emptyDetails) "Christian Pulisic" true "finished" 0).started = none ∧
    (fdDeriveToday (some emptyDetails) "Christian Pulisic" true "finished" 0).minutesPlayed = none :=
  c1_amended (some emptyDetails) "Christian Pulisic" true "finished" 0
    (by intro md h; injection h with h; subst h; exact ⟨rfl, rfl, by decide⟩)

/-- C4: `calculateMinutesPlayed` returns sub_out − sub_in when both are
present, match-end − sub_in with only a sub_in, and the sub_out minute with
only a sub_out; and the today-match derivation turns the events
`[sub_in@60, sub_out@85]` of a finished match into `minutesPlayed = 25`,
`started = false`. -/
theorem c4_theorem :
    (∀ (events : List JEvent) (matchMinute : Int) (i o : JEvent),
      events.find? (fun e => e.etype == "sub_in") = some i →
      events.find? (fun e => e.etype == "sub_out") = some o →
      calculateMinutesPlayed events matchMinute = o.minute - i.minute) ∧
    (∀ (events : List JEvent) (matchMinute : Int) (i : JEvent),
      events.find? (fun e => e.etype == "sub_in") = some i →
      events.find? (fun e => e.etype == "sub_out") = none →
      calculateMinutesPlayed events matchMinute = matchMinute - i.minute) ∧
    (∀ (events : List JEvent) (matchMinute : Int) (o : JEvent),
      events.find? (fun e => e.etype == "sub_in") = none →
      events.find? (fun e => e.etype == "sub_out") = some o →
      calculateMinutesPlayed events matchMinute = o.minute) ∧
    fdDeriveToday (some subWindowDetails) "Christian Pulisic" true "finished" 0
      = { participated := some true, minutesPlayed := some 25,
          started := some false,
          events := [JEvent.mk "sub_in" 60, JEvent.mk "sub_out" 85] } := by
  refine ⟨?_, ?_, ?_, by decide⟩
  · intro events matchMinute i o h1 h2
    simp [calculateMinutesPlayed, h1, h2]
  · intro events matchMinute i h1 h2
    simp [calculateMinutesPlayed, h1, h2]
  · intro events matchMinute o h1 h2
    simp [calculateMinutesPlayed, h1, h2]

/-- C4 (witness): the both-subs law applied to the concrete event list
`[sub_in@60, sub_out@85]` with match-end minute 90. -/
theorem c4_witness :
    calculateMinutesPlayed [JEvent.mk "sub_in" 60, JEvent.mk "sub_out" 85] 90
      = (85 : Int) - 60 :=
  c4_theorem.1 [JEvent.mk "sub_in" 60, JEvent.mk "sub_out" 85] 90
    (JEvent.mk "sub_in" 60) (JEvent.mk "sub_out" 85) (by decide) (by decide)

/-- C5 (counterexample): in the today-match derivation
(`MatchTrackerFD.updateMatchData`), a player confirmed on the bench with
zero events gets only `started = false`; `participated` and `minutesPlayed`
remain unknown rather than the claimed `false` and `0` — indistinguishable
there (by `participated`) from having no lineup data at all. -/
theorem c5_counterexample :
    (fdDeriveToday (some benchOnlyDetails) "Christian Pulisic" true "finished" 0).participated
        = none ∧
    (fdDeriveToday (some benchOnlyDetails) "Christian Pulisic" true "finished" 0).minutesPlayed
        = none ∧
    (fdDeriveToday (some benchOnlyDetails) "Christian Pulisic" true "finished" 0).started
        = some false := by
  decide

/-- C5 (amended): in the last-game derivation
(`MatchTrackerFD.updateLastGameData`), a player confirmed on the bench with
zero events yields the unused-sub record `participated = false`,
`minutesPlayed = 0`, distinguishable from the no-lineup-data record whose
`participated` is unknown; the today-match derivation leaves `participated`
and `minutesPlayed` unknown in the same situation (only `started = false`). -/
theorem c5_amended (md : MatchDetails) (playerName : String) (isHome : Bool)
    (hbench : nameListHas (sheetOf md isHome).bench (lastNameLower playerName) = true)
    (hlineup : nameListHas (sheetOf md isHome).lineup (lastNameLower playerName) = false)
    (hev : parsePlayerEvents md playerName = []) :
    fdDeriveLast (some md) playerName isHome
      = { participated := some false, minutesPlayed := some 0,
          started := some false, events := [] } ∧
    (fdDeriveLast none playerName isHome).participated = none := by
  constructor
  · have hbne : 0 < (sheetOf md isHome).bench.length := by
      cases hcase : (sheetOf md isHome).bench with
      | nil => rw [hcase] at hbench; simp [nameListHas] at hbench
      | cons a t => simp
    simp [fdDeriveLast, hbench, hlineup, hev, hbne]
  · rfl

/-- C5 (witness): the amended law at the concrete bench-only details. -/
theorem c5_witness :
    fdDeriveLast (some benchOnlyDetails) "Christian Pulisic" true
      = { participated := some false, minutesPlayed := some 0,
          started := some false, events := [] } ∧
    (fdDeriveLast none "Christian Pulisic" true).participated = none :=
  c5_amended benchOnlyDetails "Christian Pulisic" true
    (by decide) (by decide) (by decide)

/-- C6: `loadNextGamesCache` admits exactly the persisted entries whose
kickoff is strictly in the future, and `needsNextGameRefresh` holds exactly
when some roster player of the team has no cached entry or one whose
kickoff is not in the future. -/
theorem c6_theorem :
    (∀ (now : Int) (file : List (Nat × CachedGame)) (e : Nat × CachedGame),
      e ∈ loadNextGamesCache now file → now < e.2.kickoff) ∧
    (∀ (now : Int) (file : List (Nat × CachedGame)) (e : Nat × CachedGame),
      e ∈ file → now < e.2.kickoff → e ∈ loadNextGamesCache now file) ∧
    (∀ (players : List Player) (cache : Nat → Option CachedGame)
        (now : Int) (team : String),
      needsNextGameRefresh players cache now team = true ↔
        ∃ p ∈ players, p.team = team ∧
          (cache p.id = none ∨ ∃ g, cache p.id = some g ∧ g.kickoff ≤ now)) := by
  refine ⟨?_, ?_, ?_⟩
  · intro now file e he
    rw [loadNextGamesCache, List.mem_filter] at he
    simpa using he.2
  · intro now file e he hk
    rw [loadNextGamesCache, List.mem_filter]
    exact ⟨he, by simpa using hk⟩
  · intro players cache now team
    constructor
    · intro h
      rw [needsNextGameRefresh, List.any_eq_true] at h
      obtain ⟨p, hpmem, hpred⟩ := h
      rw [List.mem_filter] at hpmem
      refine ⟨p, hpmem.1, by simpa using hpmem.2, ?_⟩
      cases hc : cache p.id with
      | none => exact Or.inl rfl
      | some g =>
        refine Or.inr ⟨g, rfl, ?_⟩
        rw [hc] at hpred
        simpa using hpred
    · rintro ⟨p, hmem, hteam, hrest⟩
      rw [needsNextGameRefresh, List.any_eq_true]
      refine ⟨p, ?_, ?_⟩
      · rw [List.mem_filter]
        exact ⟨hmem, by simpa using hteam⟩
      · cases hrest with
        | inl h => rw [h]
        | inr h =>
          obtain ⟨g, hg, hkick⟩ := h
          rw [hg]
          simpa using hkick

/-- C6 (witness): a future entry survives the load filter, and a team whose
player has no cached entry is scheduled for refresh. -/
theorem c6_witness :
    (1, CachedGame.mk 100) ∈ loadNextGamesCache 50 [(1, CachedGame.mk 100)] ∧
    needsNextGameRefresh [Player.mk 1 "Chelsea"] (fun _ => none) 0 "Chelsea" = true :=
  ⟨c6_theorem.2.1 50 [(1, CachedGame.mk 100)] (1, CachedGame.mk 100)
      (by decide) (by decide),
   (c6_theorem.2.2 [Player.mk 1 "Chelsea"] (fun _ => none) 0 "Chelsea").mpr
      ⟨Player.mk 1 "Chelsea", by decide, rfl, Or.inl rfl⟩⟩

/-- C7 (counterexample): a poll tick in which a match turns live only
through the FotMob pass (after the live check, which runs right after the
Football-Data pass) ends with a live player in `matchData`, yet the next
scheduled tick keeps the long cadence. -/
theorem c7_counterexample :
    hasLiveMatches (pollForUpdates 300000 [] [(1, "live")] []
        (SchedState.mk 300000 0)).1 = true ∧
    (pollForUpdates 300000 [] [(1, "live")] []
        (SchedState.mk 300000 0)).2.currentInterval = 300000 ∧
    liveIntervalMs = 60000 := by
  decide

/-- C7 (amended): the cadence for the next tick is decided from the live
status sampled immediately after the Football-Data update of the cycle:
live there ⇒ short cadence, not live there ⇒ long cadence (a match turning
live only in the same cycle's FotMob pass takes effect a cycle later);
whenever the armed interval changes, the timer is cancelled and recreated
(generation bump). -/
theorem c7_amended (normalIntervalMs : Int)
    (fdUpd fmUpd matchData : List (Nat × String)) (st : SchedState) :
    (hasLiveMatches (mapSetAll matchData fdUpd) = true →
      (pollForUpdates normalIntervalMs fdUpd fmUpd matchData st).2.currentInterval
        = liveIntervalMs) ∧
    (hasLiveMatches (mapSetAll matchData fdUpd) = false →
      (pollForUpdates normalIntervalMs fdUpd fmUpd matchData st).2.currentInterval
        = normalIntervalMs) ∧
    ((pollForUpdates normalIntervalMs fdUpd fmUpd matchData st).2.currentInterval
        ≠ st.currentInterval →
      (pollForUpdates normalIntervalMs fdUpd fmUpd matchData st).2.timerGen
        = st.timerGen + 1) := by
  refine ⟨?_, ?_, ?_⟩
  · intro h
    simp only [pollForUpdates, h]
    by_cases hne : liveIntervalMs != st.currentInterval
    · simp [hne]
    · simp only [bne_iff_ne, ne_eq, not_not] at hne
      simp [hne]
  · intro h
    simp only [pollForUpdates, h]
    by_cases hne : normalIntervalMs != st.currentInterval
    · simp [hne]
    · simp only [bne_iff_ne, ne_eq, not_not] at hne
      simp [hne]
  · intro h
    simp only [pollForUpdates] at h ⊢
    by_cases hne :
        (if hasLiveMatches (mapSetAll matchData fdUpd) then liveIntervalMs
          else normalIntervalMs) != st.currentInterval
    · simp [hne]
    · simp only [bne_iff_ne, ne_eq, not_not] at hne
      simp [hne] at h

/-- C7 (witness): a cycle whose Football-Data pass reports a live match
switches the armed interval to the live cadence and recreates the timer. -/
theorem c7_witness :
    (pollForUpdates 300000 [(1, "live")] [] []
        (SchedState.mk 300000 5)).2.currentInterval = liveIntervalMs ∧
    (pollForUpdates 300000 [(1, "live")] [] []
        (SchedState.mk 300000 5)).2.timerGen = 5 + 1 :=
  ⟨(c7_amended 300000 [(1, "live")] [] [] (SchedState.mk 300000 5)).1 (by decide),
   (c7_amended 300000 [(1, "live")] [] [] (SchedState.mk 300000 5)).2.2 (by decide)⟩

/-- C3: evaluated at a transferred player (current roster team
"Toronto FC") whose player-API history begins with a former-club match he
sat out, `getPlayerRecentMatchFromFotMob` emits a `missedGame` whose home
and away teams both fail `teamMatches` against the current roster team —
the suppression the spec (and `HANDOVER.md`'s `currentTeamInMatch` guard)
requires does not happen in this code. -/
theorem c3_theorem :
    ((getPlayerRecentMatchFromFotMob "Toronto FC"
        [staleOldTeamMatch, earlierParticipatedMatch] none).bind
          FotMobResult.missedGame).map
        (fun g => (g.homeTeam, g.awayTeam,
          teamMatches g.homeTeam "Toronto FC",
          teamMatches g.awayTeam "Toronto FC"))
      = some ("Colorado Rapids", "LA Galaxy", false, false) := by
  decide

end AmericansAbroad
